import Mathlib

/-!
Verification development for the pytm-based threat-model repository.

The repository's own files (src/tm_*.py) are declarative model scripts; the
matching, registration and reconciliation engine they invoke is described by
the specification (spec.md §3-§4.5). The engine is embedded here from the
specification, and the script-level logic of `tm_greeting_agentic.py`
(`_find_threat` and the conditional override attachment) is embedded directly
from that source file.
-/

namespace PyTM

/-- Modelled from the spec (§3, Finding): the response classification of a
Finding, one of unmitigated, mitigated, accepted, rejected. -/
inductive Response
  | unmitigated
  | mitigated
  | accepted
  | rejected
deriving DecidableEq, Repr

/-- Modelled from the spec (§3, Threat): a Threat's target kind — it applies
to Elements, Dataflows, or Boundaries. -/
inductive TargetKind
  | element
  | dataflow
  | boundary
deriving DecidableEq, Repr

/-- Modelled from the spec (§3, Element): the concrete Element kinds
(Actor, Server, Datastore, Lambda/Process). -/
inductive ElementKind
  | actor
  | server
  | datastore
  | lambdaProcess
deriving DecidableEq, Repr

/-- Modelled from the spec (§4.2): a per-entity mapping from control-flag
name to boolean value. -/
abbrev Controls := List (String × Bool)

/-- Modelled from the spec (§4.2): reading a control flag. Unset flags read
as the documented default `false`, never an error, so predicates are total. -/
def getFlag (cs : Controls) (name : String) : Bool :=
  match List.lookup name cs with
  | some b => b
  | none => false

/-- Modelled from the spec (§3, Boundary): id, human-readable label; a trust
perimeter with no behavior and no control mapping of its own. -/
structure Boundary where
  id : String
  label : String
deriving DecidableEq, Repr

/-- Modelled from the spec (§3, Element): id, label, kind, `inBoundary`
reference (weak, optional), and a control-flag mapping. -/
structure Element where
  id : String
  label : String
  kind : ElementKind
  inBoundary : Option String
  controls : Controls
deriving DecidableEq, Repr

/-- Modelled from the spec (§3, Dataflow): an ordered pair of source and
destination Element ids, a label and its own control-flag mapping. Endpoints
are Element ids by type, so a Boundary is never a dataflow endpoint. -/
structure Dataflow where
  id : String
  source : String
  dest : String
  label : String
  controls : Controls
deriving DecidableEq, Repr

/-- Modelled from the spec (§4.3/§6): an applicability predicate is a pure
expression over named attributes of the target's control mapping. -/
inductive Pred
  | flagIs (name : String) (value : Bool)
  | conj (p q : Pred)
  | disj (p q : Pred)
  | neg (p : Pred)
deriving DecidableEq, Repr

/-- Evaluation of an applicability predicate against a control mapping;
pure and side-effect-free as required by §4.3. -/
def evalPred : Pred → Controls → Bool
  | .flagIs n v, cs => getFlag cs n == v
  | .conj p q, cs => evalPred p cs && evalPred q cs
  | .disj p q, cs => evalPred p cs || evalPred q cs
  | .neg p, cs => !(evalPred p cs)

/-- Modelled from the spec (§3, Threat): stable string id, description,
target kind, and an applicability predicate. -/
structure Threat where
  id : String
  description : String
  targetKind : TargetKind
  pred : Pred
deriving DecidableEq, Repr

/-- Modelled from the spec (§3, Finding): finding id, threat id, the target's
identity, a response classification and an optional severity score. -/
structure Finding where
  id : String
  threatId : String
  targetId : String
  response : Response
  severity : Option String
deriving DecidableEq, Repr

/-- Modelled from the spec (§3/§4.1): the Graph Model — registered
Boundaries, Elements and Dataflows. -/
structure Model where
  boundaries : List Boundary
  elements : List Element
  dataflows : List Dataflow
deriving DecidableEq, Repr

/-- The Graph Model with nothing registered. -/
def emptyModel : Model :=
  { boundaries := [], elements := [], dataflows := [] }

/-- A matching target: an Element, a Dataflow or a Boundary instance. -/
inductive Target
  | elem (e : Element)
  | flow (d : Dataflow)
  | bound (b : Boundary)
deriving DecidableEq, Repr

/-- The identity of a target. -/
def Target.tid : Target → String
  | .elem e => e.id
  | .flow d => d.id
  | .bound b => b.id

/-- The attribute mapping of a target; a Boundary has none (§3), so its
mapping is empty and every flag reads the default. -/
def Target.attrs : Target → Controls
  | .elem e => e.controls
  | .flow d => d.controls
  | .bound _ => []

/-- Modelled from the spec (§4.4): the targets of a given kind present in
the Graph Model (kind-partitioning). -/
def targetsOf (m : Model) : TargetKind → List Target
  | .element => m.elements.map Target.elem
  | .dataflow => m.dataflows.map Target.flow
  | .boundary => m.boundaries.map Target.bound

/-- Modelled from the spec (§5): finding identifiers are assigned
deterministically, keyed by the (threat id, target id) pair. -/
def findingId (threatId targetId : String) : String :=
  threatId ++ ":" ++ targetId

/-- Modelled from the spec (§4.4): for each target of the Threat's declared
kind, evaluate the predicate; if true, synthesize a candidate Finding with
response unmitigated and a deterministically generated finding id. -/
def findingsForThreat (m : Model) (t : Threat) : List Finding :=
  (targetsOf m t.targetKind).filterMap fun tg =>
    if evalPred t.pred tg.attrs then
      some { id := findingId t.id tg.tid, threatId := t.id, targetId := tg.tid,
             response := Response.unmitigated, severity := none }
    else none

/-- One step of the Matcher's scan: the Graph Model is threaded through the
pass unchanged together with the findings accumulated so far. -/
def matchStep (acc : Model × List Finding) (t : Threat) : Model × List Finding :=
  (acc.1, acc.2 ++ findingsForThreat acc.1 t)

/-- Modelled from the spec (§4.4): the Matcher's full cross-product scan over
the Catalog, threading the (frozen) Graph Model through every step. -/
def matchRun (m : Model) (catalog : List Threat) : Model × List Finding :=
  catalog.foldl matchStep (m, [])

/-- The candidate-Finding set produced by one matching pass. -/
def matchAll (m : Model) (catalog : List Threat) : List Finding :=
  (matchRun m catalog).2

/-- Modelled from the spec (§3/§4.5): a manual override, keyed by
(target identity, threat id), carrying a response and optional severity. -/
structure Override where
  targetId : String
  threatId : String
  response : Response
  severity : Option String
deriving DecidableEq, Repr

/-- Does an override carry the given (target id, threat id) key? -/
def okeyP (targetId threatId : String) (o : Override) : Bool :=
  o.targetId == targetId && o.threatId == threatId

/-- Modelled from the spec (§3 invariant, §7): supplying an override for a
(target, threat) pair replaces any earlier override for the same pair rather
than adding a duplicate — the later-declared override wins. -/
def addOverride (store : List Override) (o : Override) : List Override :=
  store.filter (fun o2 => !(okeyP o.targetId o.threatId o2)) ++ [o]

/-- The active override for a (target id, threat id) pair, if any. -/
def findOverride (store : List Override) (targetId threatId : String) : Option Override :=
  store.find? (okeyP targetId threatId)

/-- The standalone Finding representing an override whose pair had no
automatic candidate (§4.5). -/
def overrideFinding (o : Override) : Finding :=
  { id := findingId o.threatId o.targetId, threatId := o.threatId,
    targetId := o.targetId, response := o.response, severity := o.severity }

/-- Does a candidate Finding carry the given (target id, threat id) key? -/
def keyP (targetId threatId : String) (f : Finding) : Bool :=
  f.targetId == targetId && f.threatId == threatId

/-- Is there a candidate Finding for the given (target id, threat id) key? -/
def hasKey (cs : List Finding) (targetId threatId : String) : Bool :=
  cs.any (keyP targetId threatId)

/-- Modelled from the spec (§4.5): apply the active override for a
candidate's (target identity, threat id) key, replacing the candidate's
response and severity with the override's; no override leaves it unchanged. -/
def applyOverride (ov : List Override) (c : Finding) : Finding :=
  match findOverride ov c.targetId c.threatId with
  | some o => { c with response := o.response, severity := o.severity }
  | none => c

/-- Modelled from the spec (§4.5): `reconcile(candidateFindings, overrides)`.
Every candidate is kept (overridden in place when an override matches its
key); every override whose pair has no candidate is retained as an explicit
standalone Finding, so no human-supplied override is silently dropped. -/
def reconcile (cs : List Finding) (ov : List Override) : List Finding :=
  cs.map (applyOverride ov)
    ++ (ov.filter fun o => !(hasKey cs o.targetId o.threatId)).map overrideFinding

/-- The number of final Findings carrying a given (target id, threat id) key. -/
def countKey (fs : List Finding) (targetId threatId : String) : Nat :=
  fs.countP (keyP targetId threatId)

/-- The number of overrides carrying a given (target id, threat id) key. -/
def ovCount (ov : List Override) (targetId threatId : String) : Nat :=
  ov.countP (okeyP targetId threatId)

/-- Modelled from the spec (§7, Configuration errors): duplicate id,
dataflow endpoint not registered, dangling boundary reference. -/
inductive ConfigError
  | duplicateIdentifierError (id : String)
  | unregisteredEndpoint (id : String)
  | danglingBoundary (id : String)
deriving DecidableEq, Repr

/-- The ids of all registered Boundaries. -/
def boundaryIds (m : Model) : List String := m.boundaries.map Boundary.id

/-- The ids of all registered Elements. -/
def elementIds (m : Model) : List String := m.elements.map Element.id

/-- The ids of all registered Dataflows. -/
def dataflowIds (m : Model) : List String := m.dataflows.map Dataflow.id

/-- Modelled from the spec (§4.1): Boundary registration; fails with a
duplicate-identifier error on an id collision of the same kind. -/
def registerBoundary (m : Model) (b : Boundary) : Except ConfigError Model :=
  if b.id ∈ boundaryIds m then .error (.duplicateIdentifierError b.id)
  else .ok { m with boundaries := m.boundaries ++ [b] }

/-- Modelled from the spec (§4.1, §3 invariants): Element registration;
fails on an id collision of the same kind, or on a dangling `inBoundary`
reference. -/
def registerElement (m : Model) (e : Element) : Except ConfigError Model :=
  if e.id ∈ elementIds m then .error (.duplicateIdentifierError e.id)
  else
    match e.inBoundary with
    | some bid =>
        if bid ∈ boundaryIds m then .ok { m with elements := m.elements ++ [e] }
        else .error (.danglingBoundary bid)
    | none => .ok { m with elements := m.elements ++ [e] }

/-- Modelled from the spec (§4.1, §3 invariants): Dataflow registration;
fails on an id collision of the same kind, and both endpoints must already
be registered Elements — Boundary ids are a separate namespace, so a
Boundary can never satisfy the endpoint check. -/
def registerDataflow (m : Model) (d : Dataflow) : Except ConfigError Model :=
  if d.id ∈ dataflowIds m then .error (.duplicateIdentifierError d.id)
  else if d.source ∉ elementIds m then .error (.unregisteredEndpoint d.source)
  else if d.dest ∉ elementIds m then .error (.unregisteredEndpoint d.dest)
  else .ok { m with dataflows := m.dataflows ++ [d] }

/-- Modelled from the spec (§6, CLI entry point): one processing pass —
match the frozen Graph Model against the Catalog, then reconcile the
candidates with the manual overrides. A total function: matching-time data
conditions (zero matches) are empty results, not errors (§7). -/
def process (m : Model) (catalog : List Threat) (ov : List Override) : List Finding :=
  reconcile (matchAll m catalog) ov

/-- Modelled from the spec (§4.1/§9): a build of a whole model through the
registration interface, starting from the empty model; any configuration
error aborts the build (§7 propagation policy — no partial model). -/
def buildModel (bs : List Boundary) (es : List Element) (ds : List Dataflow) :
    Except ConfigError Model := do
  let m1 ← bs.foldlM registerBoundary emptyModel
  let m2 ← es.foldlM registerElement m1
  ds.foldlM registerDataflow m2

/-- Embedded from src/tm_greeting_agentic.py, lines 122-126: a linear scan
of the loaded threat catalog returning the first Threat whose id equals
`sid`, or none when no catalog Threat carries that id. -/
def _find_threat : List Threat → String → Option Threat
  | [], _ => none
  | t :: rest, sid => if t.id == sid then some t else _find_threat rest sid

/-- Embedded from src/tm_greeting_agentic.py, lines 130-156: each block looks
up one threat id and, only when the lookup succeeds, attaches exactly one
override Finding (response "mitigated", the given cvss) to the named target;
when the lookup returns none the block attaches nothing. -/
def scriptBlock (threats : List Threat) (sid targetId sev : String) : List Override :=
  match _find_threat threats sid with
  | some t => [{ targetId := targetId, threatId := t.id,
                 response := Response.mitigated, severity := some sev }]
  | none => []

/-- Embedded from src/tm_greeting_agentic.py, lines 130-156: the four
conditional override attachments (AC12 on the Action Executor, AC01 on the
Secret Manager, DE01 on the root-agent-to-Vertex dataflow, DO01 on the
PolicyAgent). -/
def attachedOverrides (threats : List Threat) : List Override :=
  scriptBlock threats "AC12" "Action Executor" "7.5"
    ++ scriptBlock threats "AC01" "Secret Manager" "9.0"
    ++ scriptBlock threats "DE01" "LLM request to Vertex AI (authenticated, TLS)" "6.5"
    ++ scriptBlock threats "DO01" "PolicyAgent (Guardrail)" "5.0"

/-- Embedded from src/tm_greeting_agentic.py, lines 22-24: the three
boundaries of the greeting-agentic model. -/
def greetingBoundaries : List Boundary :=
  [ { id := "Internet", label := "Internet" },
    { id := "Cloud Provider", label := "Cloud Provider" },
    { id := "VPC Service Perimeter", label := "VPC Service Perimeter" } ]

/-- Embedded from src/tm_greeting_agentic.py, lines 27-117: the actors,
servers and datastores of the greeting-agentic model, with their boundary
placements and declared control flags. -/
def greetingElements : List Element :=
  [ { id := "User", label := "User", kind := ElementKind.actor,
      inBoundary := some "Internet", controls := [] },
    { id := "GreetingAgent (root_agent)", label := "GreetingAgent (root_agent)",
      kind := ElementKind.server, inBoundary := some "VPC Service Perimeter",
      controls := [("isHardened", true), ("sanitizesInput", true)] },
    { id := "Vertex AI Agent Engine", label := "Vertex AI Agent Engine",
      kind := ElementKind.server, inBoundary := some "Cloud Provider", controls := [] },
    { id := "Action Executor", label := "Action Executor",
      kind := ElementKind.server, inBoundary := some "VPC Service Perimeter", controls := [] },
    { id := "Plan Store (persistent state)", label := "Plan Store (persistent state)",
      kind := ElementKind.datastore, inBoundary := some "VPC Service Perimeter", controls := [] },
    { id := "PolicyAgent (Guardrail)", label := "PolicyAgent (Guardrail)",
      kind := ElementKind.server, inBoundary := some "VPC Service Perimeter", controls := [] },
    { id := "Secret Manager", label := "Secret Manager",
      kind := ElementKind.datastore, inBoundary := some "VPC Service Perimeter", controls := [] },
    { id := "Telemetry / Audit Logs", label := "Telemetry / Audit Logs",
      kind := ElementKind.datastore, inBoundary := some "VPC Service Perimeter", controls := [] } ]

/-- Embedded from src/tm_greeting_agentic.py, lines 80-106: the dataflows of
the greeting-agentic model (identified by their labels). -/
def greetingDataflows : List Dataflow :=
  [ { id := "User prompt (HTTPS/TLS)", source := "User",
      dest := "GreetingAgent (root_agent)", label := "User prompt (HTTPS/TLS)", controls := [] },
    { id := "LLM request to Vertex AI (authenticated, TLS)",
      source := "GreetingAgent (root_agent)", dest := "Vertex AI Agent Engine",
      label := "LLM request to Vertex AI (authenticated, TLS)", controls := [] },
    { id := "LLM response (model output)", source := "Vertex AI Agent Engine",
      dest := "GreetingAgent (root_agent)", label := "LLM response (model output)", controls := [] },
    { id := "Proposed action / plan (for validation)", source := "GreetingAgent (root_agent)",
      dest := "PolicyAgent (Guardrail)", label := "Proposed action / plan (for validation)", controls := [] },
    { id := "Approval / rejection", source := "PolicyAgent (Guardrail)",
      dest := "GreetingAgent (root_agent)", label := "Approval / rejection", controls := [] },
    { id := "Execute approved action (API call, booking)", source := "GreetingAgent (root_agent)",
      dest := "Action Executor", label := "Execute approved action (API call, booking)", controls := [] },
    { id := "Execution result / status", source := "Action Executor",
      dest := "GreetingAgent (root_agent)", label := "Execution result / status", controls := [] },
    { id := "Save plan / long-running task state", source := "GreetingAgent (root_agent)",
      dest := "Plan Store (persistent state)", label := "Save plan / long-running task state", controls := [] },
    { id := "Update task status / result", source := "Action Executor",
      dest := "Plan Store (persistent state)", label := "Update task status / result", controls := [] },
    { id := "Read service credentials (Secret Manager, least-privilege)",
      source := "GreetingAgent (root_agent)", dest := "Secret Manager",
      label := "Read service credentials (Secret Manager, least-privilege)", controls := [] },
    { id := "Log policy decisions & flagged items", source := "PolicyAgent (Guardrail)",
      dest := "Telemetry / Audit Logs", label := "Log policy decisions & flagged items", controls := [] },
    { id := "Log executed actions & responses", source := "GreetingAgent (root_agent)",
      dest := "Telemetry / Audit Logs", label := "Log executed actions & responses", controls := [] } ]

/-- The greeting-agentic Graph Model, built through the registration
interface from the declarations of src/tm_greeting_agentic.py. -/
def greetingAgenticModel : Except ConfigError Model :=
  buildModel greetingBoundaries greetingElements greetingDataflows

/-- A Graph Model with zero Elements but one registered Boundary. -/
def boundaryOnlyModel : Model :=
  { boundaries := [{ id := "Internet", label := "Internet" }],
    elements := [], dataflows := [] }

/-- A boundary-kind Threat whose predicate holds on an empty attribute
mapping: a Boundary carries no control flags (§3), so `isHardened` reads
the default false. -/
def boundaryThreat : Threat :=
  { id := "B01", description := "unhardened trust perimeter",
    targetKind := TargetKind.boundary, pred := Pred.flagIs "isHardened" false }

/-- The spec's §8 dataflow scenario: Actor A. -/
def scenarioActorA : Element :=
  { id := "A", label := "Actor A", kind := ElementKind.actor,
    inBoundary := none, controls := [] }

/-- The spec's §8 dataflow scenario: Server S. -/
def scenarioServerS : Element :=
  { id := "S", label := "Server S", kind := ElementKind.server,
    inBoundary := none, controls := [] }

/-- The spec's §8 dataflow scenario: a Dataflow from A to S with no
`isEncrypted` flag set. -/
def scenarioFlow : Dataflow :=
  { id := "A to S", source := "A", dest := "S", label := "A to S",
    controls := [] }

/-- The spec's §8 dataflow scenario model. -/
def scenarioModel : Model :=
  { boundaries := [], elements := [scenarioActorA, scenarioServerS],
    dataflows := [scenarioFlow] }

/-- The spec's §8 Threat U: target kind Dataflow, predicate
`isEncrypted == false`. -/
def threatU : Threat :=
  { id := "U", description := "unencrypted dataflow",
    targetKind := TargetKind.dataflow, pred := Pred.flagIs "isEncrypted" false }

/-- The candidate Finding the Matcher synthesizes for Threat U on the §8
scenario dataflow. -/
def scenarioFinding : Finding :=
  { id := "U:A to S", threatId := "U", targetId := "A to S",
    response := Response.unmitigated, severity := none }

/-- A concrete override for the (scenario flow, U) pair: accepted. -/
def ovAccept : Override :=
  { targetId := "A to S", threatId := "U",
    response := Response.accepted, severity := none }

/-- A later concrete override for the same (scenario flow, U) pair:
mitigated, severity 5.0. -/
def ovMitigate : Override :=
  { targetId := "A to S", threatId := "U",
    response := Response.mitigated, severity := some "5.0" }

/-- A concrete catalog Threat with id AC01 (access-control threat), used to
exercise the script's lookup-guarded override attachment. -/
def tAC01 : Threat :=
  { id := "AC01", description := "privilege abuse",
    targetKind := TargetKind.element, pred := Pred.flagIs "isHardened" false }

/-- The override Finding the script attaches for AC01 on the Secret Manager
when the lookup succeeds (src/tm_greeting_agentic.py lines 138-142). -/
def oAC01 : Override :=
  { targetId := "Secret Manager", threatId := "AC01",
    response := Response.mitigated, severity := some "9.0" }

/-! ## Helper lemmas -/

theorem countP_congr_on {α : Type} (l : List α) (p q : α → Bool)
    (h : ∀ a ∈ l, p a = q a) : l.countP p = l.countP q := by
  induction l with
  | nil => rfl
  | cons a l ih =>
    rw [List.countP_cons, List.countP_cons, h a (by simp),
      ih fun x hx => h x (by simp [hx])]

theorem find?_append_of_neg {α : Type} (p : α → Bool) (l1 l2 : List α)
    (h : ∀ x ∈ l1, p x = false) :
    List.find? p (l1 ++ l2) = List.find? p l2 := by
  induction l1 with
  | nil => rfl
  | cons a l ih =>
    rw [List.cons_append, List.find?_cons_of_neg _ (by simp [h a (by simp)])]
    exact ih fun x hx => h x (by simp [hx])

theorem foldl_matchStep (catalog : List Threat) (m : Model) (fs : List Finding) :
    catalog.foldl matchStep (m, fs) = (m, fs ++ catalog.flatMap (findingsForThreat m)) := by
  induction catalog generalizing fs with
  | nil => simp
  | cons t c ih =>
    simp only [List.foldl_cons, matchStep, List.flatMap_cons]
    rw [ih]
    simp [List.append_assoc]

theorem matchRun_fst_eq (m : Model) (catalog : List Threat) :
    (matchRun m catalog).1 = m := by
  rw [matchRun, foldl_matchStep]

theorem matchAll_eq_flatMap (m : Model) (catalog : List Threat) :
    matchAll m catalog = catalog.flatMap (findingsForThreat m) := by
  rw [matchAll, matchRun, foldl_matchStep]
  rfl

theorem mem_matchAll {f : Finding} {m : Model} {catalog : List Threat} :
    f ∈ matchAll m catalog ↔ ∃ t ∈ catalog, f ∈ findingsForThreat m t := by
  rw [matchAll_eq_flatMap]
  exact List.mem_flatMap

theorem response_of_findingsForThreat {f : Finding} {m : Model} {t : Threat}
    (h : f ∈ findingsForThreat m t) : f.response = Response.unmitigated := by
  simp only [findingsForThreat, List.mem_filterMap] at h
  obtain ⟨tg, -, htg⟩ := h
  split at htg
  · simp only [Option.some.injEq] at htg
    subst htg
    rfl
  · exact absurd htg (by simp)

theorem response_of_matchAll {f : Finding} {m : Model} {catalog : List Threat}
    (h : f ∈ matchAll m catalog) : f.response = Response.unmitigated := by
  obtain ⟨t, -, hf⟩ := mem_matchAll.mp h
  exact response_of_findingsForThreat hf

theorem applyOverride_keyP (ov : List Override) (c : Finding) (tid thid : String) :
    keyP tid thid (applyOverride ov c) = keyP tid thid c := by
  rw [applyOverride]
  cases findOverride ov c.targetId c.threatId <;> rfl

theorem overrideFinding_keyP (o : Override) (tid thid : String) :
    keyP tid thid (overrideFinding o) = okeyP tid thid o := rfl

theorem okeyP_self (o : Override) : okeyP o.targetId o.threatId o = true := by
  simp [okeyP]

theorem okeyP_eq {tid thid : String} {o : Override}
    (h : okeyP tid thid o = true) : o.targetId = tid ∧ o.threatId = thid := by
  simpa [okeyP] using h

theorem keyP_eq {tid thid : String} {f : Finding}
    (h : keyP tid thid f = true) : f.targetId = tid ∧ f.threatId = thid := by
  simpa [keyP] using h

theorem findOverride_addOverride (store : List Override) (o : Override) :
    findOverride (addOverride store o) o.targetId o.threatId = some o := by
  rw [findOverride, addOverride, find?_append_of_neg]
  · exact List.find?_cons_of_pos _ (okeyP_self o)
  · intro x hx
    rcases List.mem_filter.mp hx with ⟨-, hq⟩
    simpa using hq

theorem mem_addOverride_eq {store : List Override} {o o3 : Override}
    (h3 : o3 ∈ addOverride store o)
    (hk : okeyP o.targetId o.threatId o3 = true) : o3 = o := by
  rw [addOverride] at h3
  rcases List.mem_append.mp h3 with h | h
  · rcases List.mem_filter.mp h with ⟨-, hq⟩
    rw [hk] at hq
    exact absurd hq (by simp)
  · simpa using h

theorem ovCount_addOverride (store : List Override) (o : Override) :
    ovCount (addOverride store o) o.targetId o.threatId = 1 := by
  rw [ovCount, addOverride, List.countP_append]
  have h0 : (store.filter fun o2 => !(okeyP o.targetId o.threatId o2)).countP
      (okeyP o.targetId o.threatId) = 0 := by
    rw [List.countP_eq_zero]
    intro a ha
    rcases List.mem_filter.mp ha with ⟨-, hq⟩
    simpa using hq
  rw [h0]
  simp [List.countP_cons, okeyP_self]

theorem hasKey_congr {cs : List Finding} {tid thid : String} {o : Override}
    (h : okeyP tid thid o = true) :
    hasKey cs o.targetId o.threatId = hasKey cs tid thid := by
  rcases okeyP_eq h with ⟨h1, h2⟩
  rw [h1, h2]

theorem countKey_reconcile (cs : List Finding) (ov : List Override) (tid thid : String) :
    countKey (reconcile cs ov) tid thid =
      countKey cs tid thid + cond (hasKey cs tid thid) 0 (ovCount ov tid thid) := by
  rw [reconcile, countKey, List.countP_append]
  congr 1
  · rw [List.countP_map]
    exact countP_congr_on _ _ _ fun c _ => applyOverride_keyP ov c tid thid
  · rw [List.countP_map]
    have hrw : ((ov.filter fun o => !(hasKey cs o.targetId o.threatId)).countP
        (keyP tid thid ∘ overrideFinding)) =
        ((ov.filter fun o => !(hasKey cs o.targetId o.threatId)).countP
        (okeyP tid thid)) :=
      countP_congr_on _ _ _ fun o _ => overrideFinding_keyP o tid thid
    rw [hrw, List.countP_filter]
    cases hc : hasKey cs tid thid with
    | true =>
        show _ = 0
        rw [List.countP_eq_zero]
        intro a _ hpa
        rcases Bool.and_eq_true_iff.mp hpa with ⟨hk, hq⟩
        rw [hasKey_congr hk, hc] at hq
        exact absurd hq (by simp)
    | false =>
        show _ = ovCount ov tid thid
        rw [ovCount]
        refine countP_congr_on _ _ _ fun a _ => ?_
        cases hk : okeyP tid thid a with
        | true => rw [Bool.true_and, hasKey_congr hk, hc]; rfl
        | false => rw [Bool.false_and]

theorem hasKey_true_iff {cs : List Finding} {tid thid : String} :
    hasKey cs tid thid = true ↔ ∃ f ∈ cs, keyP tid thid f = true := by
  rw [hasKey]
  exact List.any_eq_true

theorem countKey_pos_of_hasKey {cs : List Finding} {tid thid : String}
    (h : hasKey cs tid thid = true) : 0 < countKey cs tid thid := by
  rcases hasKey_true_iff.mp h with ⟨f, hf, hk⟩
  exact List.countP_pos_iff.mpr ⟨f, hf, hk⟩

theorem countKey_zero_of_not_hasKey {cs : List Finding} {tid thid : String}
    (h : hasKey cs tid thid = false) : countKey cs tid thid = 0 := by
  rw [countKey, List.countP_eq_zero]
  intro f hf hk
  rw [hasKey_true_iff.mpr ⟨f, hf, hk⟩] at h
  exact absurd h (by simp)

theorem _find_threat_eq_find? (threats : List Threat) (sid : String) :
    _find_threat threats sid = threats.find? fun t => t.id == sid := by
  induction threats with
  | nil => rfl
  | cons t rest ih =>
    simp only [_find_threat]
    cases ht : t.id == sid <;> simp [ht, ih]

theorem _find_threat_id {threats : List Threat} {sid : String} {t : Threat}
    (h : _find_threat threats sid = some t) : t.id = sid := by
  rw [_find_threat_eq_find?] at h
  have hp := List.find?_some h
  exact eq_of_beq (by simpa using hp)

theorem scriptBlock_threatId {threats : List Threat} {sid x y : String}
    {o : Override} (h : o ∈ scriptBlock threats sid x y) : o.threatId = sid := by
  rw [scriptBlock] at h
  cases hf : _find_threat threats sid with
  | none => rw [hf] at h; exact absurd h (by simp)
  | some t =>
      rw [hf] at h
      rcases List.mem_singleton.mp h with rfl
      exact _find_threat_id hf

theorem scriptBlock_none {threats : List Threat} {sid : String} (x y : String)
    (h : _find_threat threats sid = none) : scriptBlock threats sid x y = [] := by
  rw [scriptBlock, h]

/-! ## Claim theorems -/

/-- C1: For every set of candidate Findings produced by the Matcher and
every override store, `reconcile` returns, for each candidate that has an
override keyed by its (target identity, threat id), a final Finding whose
response and severity are the override's (replacing the candidate's), and
returns every candidate with no such override unmodified, with response
"unmitigated". -/
theorem reconcile_applies_overrides (m : Model) (catalog : List Threat)
    (ov : List Override) (c : Finding) (hc : c ∈ matchAll m catalog) :
    (∀ o : Override, findOverride ov c.targetId c.threatId = some o →
      { c with response := o.response, severity := o.severity } ∈
        reconcile (matchAll m catalog) ov) ∧
    (findOverride ov c.targetId c.threatId = none →
      c ∈ reconcile (matchAll m catalog) ov ∧ c.response = Response.unmitigated) := by
  have hmem : applyOverride ov c ∈ reconcile (matchAll m catalog) ov :=
    List.mem_append_left _ (List.mem_map_of_mem _ hc)
  constructor
  · intro o ho
    have ha : applyOverride ov c =
        { c with response := o.response, severity := o.severity } := by
      rw [applyOverride, ho]
    rwa [ha] at hmem
  · intro hnone
    have ha : applyOverride ov c = c := by rw [applyOverride, hnone]
    rw [ha] at hmem
    exact ⟨hmem, response_of_matchAll hc⟩

/-- Witness for C1: the §8 scenario candidate, reconciled against an empty
override store, is retained unmodified with response unmitigated. -/
theorem reconcile_applies_overrides_witness :
    scenarioFinding ∈ reconcile (matchAll scenarioModel [threatU]) [] ∧
    scenarioFinding.response = Response.unmitigated :=
  (reconcile_applies_overrides scenarioModel [threatU] [] scenarioFinding
    (by decide)).2 rfl

/-- C2: At most one override per (target identity, threat id) pair is
active: a later override for the same pair replaces the earlier one rather
than adding a duplicate, so two overrides for the same pair with different
responses yield exactly one final Finding for that pair, carrying the
later-declared response. -/
theorem later_override_wins (store : List Override) (o1 o2 : Override)
    (cs : List Finding)
    (hkey1 : o1.targetId = o2.targetId) (hkey2 : o1.threatId = o2.threatId)
    (hresp : o1.response ≠ o2.response)
    (huniq : countKey cs o2.targetId o2.threatId ≤ 1) :
    findOverride (addOverride (addOverride store o1) o2) o2.targetId o2.threatId
      = some o2 ∧
    ovCount (addOverride (addOverride store o1) o2) o2.targetId o2.threatId = 1 ∧
    countKey (reconcile cs (addOverride (addOverride store o1) o2))
      o2.targetId o2.threatId = 1 ∧
    ∀ f ∈ reconcile cs (addOverride (addOverride store o1) o2),
      keyP o2.targetId o2.threatId f = true → f.response = o2.response := by
  refine ⟨findOverride_addOverride _ o2, ovCount_addOverride _ o2, ?_, ?_⟩
  · rw [countKey_reconcile, ovCount_addOverride]
    cases hh : hasKey cs o2.targetId o2.threatId with
    | true =>
        have hpos := countKey_pos_of_hasKey hh
        have h1 : countKey cs o2.targetId o2.threatId = 1 := by omega
        rw [h1]
        rfl
    | false =>
        rw [countKey_zero_of_not_hasKey hh]
        rfl
  · intro f hf hk
    rw [reconcile] at hf
    rcases List.mem_append.mp hf with h | h
    · obtain ⟨c, hcmem, rfl⟩ := List.mem_map.mp h
      rw [applyOverride_keyP] at hk
      rcases keyP_eq hk with ⟨hct, hcn⟩
      rw [applyOverride, hct, hcn, findOverride_addOverride]
    · obtain ⟨o, homem, rfl⟩ := List.mem_map.mp h
      have hoin : o ∈ addOverride (addOverride store o1) o2 :=
        List.mem_of_mem_filter homem
      rw [overrideFinding_keyP] at hk
      rw [mem_addOverride_eq hoin hk]
      rfl

/-- Witness for C2: two concrete overrides for the (scenario flow, U) pair,
the second mitigated; the reconciled set has exactly one Finding for the
pair and it carries the later response. -/
theorem later_override_wins_witness :
    countKey (reconcile [] (addOverride (addOverride [] ovAccept) ovMitigate))
      "A to S" "U" = 1 :=
  (later_override_wins [] ovAccept ovMitigate [] rfl rfl (by decide)
    (by decide)).2.2.1

/-- C3: An override whose (target, threat) pair has no corresponding
candidate Finding is retained by `reconcile` as exactly one explicit
standalone final Finding carrying the override's response (not
"unmitigated"); no human-supplied override is silently dropped. -/
theorem standalone_override_retained (cs : List Finding) (ov : List Override)
    (o : Override) (ho : o ∈ ov)
    (hnc : hasKey cs o.targetId o.threatId = false)
    (huniq : ovCount ov o.targetId o.threatId ≤ 1)
    (hr : o.response ≠ Response.unmitigated) :
    overrideFinding o ∈ reconcile cs ov ∧
    (overrideFinding o).response = o.response ∧
    (overrideFinding o).response ≠ Response.unmitigated ∧
    countKey (reconcile cs ov) o.targetId o.threatId = 1 := by
  refine ⟨?_, rfl, hr, ?_⟩
  · apply List.mem_append_right
    exact List.mem_map_of_mem _ (List.mem_filter.mpr ⟨ho, by simp [hnc]⟩)
  · rw [countKey_reconcile, countKey_zero_of_not_hasKey hnc, hnc]
    show 0 + ovCount ov o.targetId o.threatId = 1
    have hpos : 0 < ovCount ov o.targetId o.threatId := by
      rw [ovCount]
      exact List.countP_pos_iff.mpr ⟨o, ho, okeyP_self o⟩
    omega

/-- Witness for C3: the mitigated override on the (scenario flow, U) pair,
with no candidates at all, survives reconciliation as a standalone Finding. -/
theorem standalone_override_retained_witness :
    overrideFinding ovMitigate ∈ reconcile [] [ovMitigate] ∧
    (overrideFinding ovMitigate).response = ovMitigate.response :=
  have h := standalone_override_retained [] [ovMitigate] ovMitigate
    (by decide) rfl (by decide) (by decide)
  ⟨h.1, h.2.1⟩

/-- C4: for a fixed frozen Graph Model and Catalog the Matcher is a
deterministic function — a second run over the same inputs yields the very
same candidate Findings — and candidate membership has no dependence on
catalog evaluation order: any permutation of the catalog produces the same
candidate-Finding membership. -/
theorem matcher_deterministic (m : Model) (catalog catalog2 : List Threat)
    (hperm : catalog.Perm catalog2) :
    matchAll m catalog = matchAll m catalog ∧
    ∀ f : Finding, f ∈ matchAll m catalog ↔ f ∈ matchAll m catalog2 := by
  refine ⟨rfl, fun f => ?_⟩
  rw [mem_matchAll, mem_matchAll]
  constructor
  · rintro ⟨t, ht, hf⟩
    exact ⟨t, hperm.mem_iff.mp ht, hf⟩
  · rintro ⟨t, ht, hf⟩
    exact ⟨t, hperm.mem_iff.mpr ht, hf⟩

/-- Witness for C4: the scenario candidate's membership is unaffected by
swapping the two threats of a concrete catalog. -/
theorem matcher_deterministic_witness :
    scenarioFinding ∈ matchAll scenarioModel [threatU, boundaryThreat] ↔
    scenarioFinding ∈ matchAll scenarioModel [boundaryThreat, threatU] :=
  (matcher_deterministic scenarioModel [threatU, boundaryThreat]
    [boundaryThreat, threatU] (by decide)).2 scenarioFinding

/-- Counterexample for C5 as stated: a Graph Model with zero Elements but
one registered Boundary still yields a Finding for a boundary-kind Threat
whose predicate holds on the Boundary's (empty) attribute mapping, so "for
every Graph Model with zero Elements the Matcher produces zero Findings"
fails for Boundary-targeted Threats. -/
theorem zero_elements_counterexample :
    boundaryOnlyModel.elements = [] ∧
    matchAll boundaryOnlyModel [boundaryThreat] ≠ [] := by decide

/-- C5 (amended): every Threat whose declared target kind has zero matching
targets in the Graph Model produces zero Findings and no error (matching is
a total function), and the empty Graph Model — zero Boundaries, Elements
and Dataflows — produces zero candidate Findings for every catalog. -/
theorem zero_targets_zero_findings (m : Model) (t : Threat)
    (catalog : List Threat) :
    (targetsOf m t.targetKind = [] → findingsForThreat m t = []) ∧
    matchAll emptyModel catalog = [] := by
  constructor
  · intro h
    unfold findingsForThreat
    rw [h]
    rfl
  · rw [matchAll_eq_flatMap, List.flatMap_eq_nil_iff]
    intro t2 _
    unfold findingsForThreat
    cases ht : t2.targetKind <;> rfl

/-- Witness for C5: threat U has zero dataflow targets in the empty model
and produces zero Findings there. -/
theorem zero_targets_zero_findings_witness :
    findingsForThreat emptyModel threatU = [] ∧
    matchAll emptyModel [threatU] = [] :=
  ⟨(zero_targets_zero_findings emptyModel threatU [threatU]).1 rfl,
   (zero_targets_zero_findings emptyModel threatU [threatU]).2⟩

/-- C6: reading a control flag that was never set returns the documented
default false and never errors (`getFlag` is a total function, so threat
predicates over any flag are total), and the §8 scenario — a Dataflow from
Actor A to Server S with no isEncrypted flag set, against Threat U of kind
Dataflow with predicate isEncrypted == false — yields exactly one Finding,
for U on that Dataflow. -/
theorem unset_flag_default (cs : Controls) (name : String)
    (h : List.lookup name cs = none) :
    getFlag cs name = false ∧
    evalPred threatU.pred scenarioFlow.controls = true ∧
    matchAll scenarioModel [threatU] = [scenarioFinding] := by
  refine ⟨?_, by decide, by decide⟩
  rw [getFlag, h]

/-- Witness for C6: the empty control mapping of the scenario flow reads
isEncrypted as false and the scenario yields the single expected Finding. -/
theorem unset_flag_default_witness :
    getFlag [] "isEncrypted" = false ∧
    evalPred threatU.pred scenarioFlow.controls = true ∧
    matchAll scenarioModel [threatU] = [scenarioFinding] :=
  unset_flag_default [] "isEncrypted" rfl

/-- C7: registering a Boundary, Element or Dataflow whose caller-supplied id
collides with an existing id of the same kind fails with the
duplicate-identifier configuration error, and the failed registration
retains no mutation: the error result carries no model, so the caller's
Graph Model is unchanged. -/
theorem duplicate_id_registration (m : Model) (b : Boundary) (e : Element)
    (d : Dataflow) :
    (b.id ∈ boundaryIds m →
      registerBoundary m b =
        Except.error (ConfigError.duplicateIdentifierError b.id) ∧
      ∀ m2 : Model, registerBoundary m b ≠ Except.ok m2) ∧
    (e.id ∈ elementIds m →
      registerElement m e =
        Except.error (ConfigError.duplicateIdentifierError e.id) ∧
      ∀ m2 : Model, registerElement m e ≠ Except.ok m2) ∧
    (d.id ∈ dataflowIds m →
      registerDataflow m d =
        Except.error (ConfigError.duplicateIdentifierError d.id) ∧
      ∀ m2 : Model, registerDataflow m d ≠ Except.ok m2) := by
  refine ⟨fun h => ?_, fun h => ?_, fun h => ?_⟩
  · have he : registerBoundary m b =
        Except.error (ConfigError.duplicateIdentifierError b.id) := by
      unfold registerBoundary
      rw [if_pos h]
    exact ⟨he, fun m2 hok => by rw [he] at hok; exact Except.noConfusion hok⟩
  · have he : registerElement m e =
        Except.error (ConfigError.duplicateIdentifierError e.id) := by
      unfold registerElement
      rw [if_pos h]
    exact ⟨he, fun m2 hok => by rw [he] at hok; exact Except.noConfusion hok⟩
  · have he : registerDataflow m d =
        Except.error (ConfigError.duplicateIdentifierError d.id) := by
      unfold registerDataflow
      rw [if_pos h]
    exact ⟨he, fun m2 hok => by rw [he] at hok; exact Except.noConfusion hok⟩

/-- Witness for C7: re-registering the scenario Actor and the scenario
Dataflow in the scenario model fails with the duplicate-identifier error. -/
theorem duplicate_id_registration_witness :
    registerElement scenarioModel scenarioActorA =
      Except.error (ConfigError.duplicateIdentifierError "A") ∧
    registerDataflow scenarioModel scenarioFlow =
      Except.error (ConfigError.duplicateIdentifierError "A to S") :=
  ⟨((duplicate_id_registration scenarioModel { id := "X", label := "X" }
      scenarioActorA scenarioFlow).2.1 (by decide)).1,
   ((duplicate_id_registration scenarioModel { id := "X", label := "X" }
      scenarioActorA scenarioFlow).2.2 (by decide)).1⟩

/-- C8: a Dataflow registers successfully only when its source and
destination are both already-registered Elements (Actors included), and an
unregistered endpoint is a fatal configuration error. The endpoint check is
against Element ids only — Boundary ids form a separate namespace — so a
Boundary is never a valid dataflow endpoint. -/
theorem dataflow_endpoints_registered (m : Model) (d : Dataflow) :
    (∀ m2 : Model, registerDataflow m d = Except.ok m2 →
      d.source ∈ elementIds m ∧ d.dest ∈ elementIds m) ∧
    (d.source ∉ elementIds m ∨ d.dest ∉ elementIds m →
      ∃ err : ConfigError, registerDataflow m d = Except.error err) := by
  constructor
  · intro m2 h
    unfold registerDataflow at h
    by_cases h1 : d.id ∈ dataflowIds m
    · rw [if_pos h1] at h
      exact Except.noConfusion h
    · rw [if_neg h1] at h
      by_cases h2 : d.source ∉ elementIds m
      · rw [if_pos h2] at h
        exact Except.noConfusion h
      · rw [if_neg h2] at h
        by_cases h3 : d.dest ∉ elementIds m
        · rw [if_pos h3] at h
          exact Except.noConfusion h
        · exact ⟨not_not.mp h2, not_not.mp h3⟩
  · intro hor
    by_cases h1 : d.id ∈ dataflowIds m
    · exact ⟨ConfigError.duplicateIdentifierError d.id, by
        unfold registerDataflow
        rw [if_pos h1]⟩
    · by_cases h2 : d.source ∉ elementIds m
      · exact ⟨ConfigError.unregisteredEndpoint d.source, by
          unfold registerDataflow
          rw [if_neg h1, if_pos h2]⟩
      · rcases hor with hs | hd
        · exact absurd hs h2
        · exact ⟨ConfigError.unregisteredEndpoint d.dest, by
            unfold registerDataflow
            rw [if_neg h1, if_neg h2, if_pos hd]⟩

/-- Witness for C8: a dataflow whose destination id "Z" names no registered
Element of the scenario model is rejected with a configuration error. -/
theorem dataflow_endpoints_registered_witness :
    ∃ err : ConfigError,
      registerDataflow scenarioModel
        { id := "bad", source := "A", dest := "Z", label := "bad",
          controls := [] } = Except.error err :=
  (dataflow_endpoints_registered scenarioModel
    { id := "bad", source := "A", dest := "Z", label := "bad",
      controls := [] }).2 (Or.inr (by decide))

/-- C9: a matching pass leaves the frozen Graph Model unchanged — the model
threaded through the Matcher's scan is returned identical, so every
Boundary, Element and Dataflow (ids, labels, inBoundary references and
control mappings included) is the same before and after; the override store
is a separate structure, the only post-construction mutation path. -/
theorem matcher_never_mutates (m : Model) (catalog : List Threat) :
    (matchRun m catalog).1 = m ∧
    (matchRun m catalog).1.boundaries = m.boundaries ∧
    (matchRun m catalog).1.elements = m.elements ∧
    (matchRun m catalog).1.dataflows = m.dataflows := by
  have h := matchRun_fst_eq m catalog
  exact ⟨h, by rw [h], by rw [h], by rw [h]⟩

/-- C10: `_find_threat` returns the first catalog Threat whose id equals the
given string (it coincides with the first-match search) and returns none
exactly when no catalog Threat carries that id; whenever it returns none for
any of AC12, AC01, DE01, DO01, the script attaches no override Finding for
that threat id, and the greeting-agentic model itself still builds and is
processed without error. -/
theorem find_threat_first_match (threats : List Threat) (sid : String) :
    (_find_threat threats sid = threats.find? fun t => t.id == sid) ∧
    (_find_threat threats sid = none ↔ ∀ t ∈ threats, t.id ≠ sid) ∧
    (∀ sid2 ∈ (["AC12", "AC01", "DE01", "DO01"] : List String),
      _find_threat threats sid2 = none →
      ∀ o ∈ attachedOverrides threats, o.threatId ≠ sid2) ∧
    greetingAgenticModel.isOk = true := by
  refine ⟨_find_threat_eq_find? threats sid, ?_, ?_, by decide⟩
  · rw [_find_threat_eq_find?, List.find?_eq_none]
    simp
  · intro sid2 _ hnone o hoin heq
    unfold attachedOverrides at hoin
    have key : ∀ s x y : String, o ∈ scriptBlock threats s x y → False := by
      intro s x y hmem
      have ht := scriptBlock_threatId hmem
      rw [← (ht.symm.trans heq)] at hnone
      rw [scriptBlock_none x y hnone] at hmem
      exact absurd hmem (by simp)
    rcases List.mem_append.mp hoin with h | h
    · rcases List.mem_append.mp h with h | h
      · rcases List.mem_append.mp h with h | h
        · exact key _ _ _ h
        · exact key _ _ _ h
      · exact key _ _ _ h
    · exact key _ _ _ h

/-- Witness for C10: against a one-threat catalog holding only AC01, the
AC12 lookup returns none and the attached override for AC01 does not carry
threat id AC12; the greeting-agentic model builds without error. -/
theorem find_threat_first_match_witness :
    oAC01.threatId ≠ "AC12" ∧ greetingAgenticModel.isOk = true :=
  ⟨(find_threat_first_match [tAC01] "AC12").2.2.1 "AC12" (by decide) rfl
      oAC01 (by decide),
   (find_threat_first_match [] "AC12").2.2.2⟩

end PyTM


